import Mathlib

/-!
Shallow embedding of the authentication core of the `cd` repository.

The repository holds three near-duplicate Express services
(`src/index.js`, `src/unnamed/part_000`, `src/unnamed/part_001`) over a
`usuarios` table (id, nombre, correo, contrasena = bcrypt hash) and a
`registros` table.  The spec covers the credential and token subsystem:
bcryptjs hashing/compare, jsonwebtoken sign/verify, the login handlers,
the token-extraction middleware and the record endpoints guarded by it.

bcryptjs and jsonwebtoken are external libraries, not part of the
repository's sources; they are modelled from the spec's contracts
(spec sections 4.1 and 4.2) with concrete executable stand-ins.  The
route handlers are translated line by line from the three source files.
-/

/-! ## Credential Store Adapter (bcryptjs model) -/

/-- Modelled from the spec: section 4.1.  A credential hash is a
self-describing value holding the algorithm parameters (cost factor,
salt) and the derived digest, sufficient to re-verify without external
state.  bcryptjs itself is an external dependency, absent from `src/`. -/
structure BcryptHash where
  cost : Nat
  salt : Nat
  digest : Nat
deriving DecidableEq

/-- Modelled from the spec: the one-way digest of the bcrypt KDF, as a
concrete executable stand-in keyed by the salt. -/
def bcryptDigest (salt : Nat) (p : String) : Nat :=
  p.toList.foldl (fun a ch => a * 65599 + ch.toNat + 1) (salt + 1)

/-- Modelled from the spec: `hash(plaintext)` draws a salt internally and
embeds the cost factor and salt in the output.  The salt is surfaced as a
parameter so properties can quantify over every salt the operation may
draw.  The call sites pass cost factor 10 (`bcrypt.hash(contrasena, 10)`). -/
def bcryptHash (cost : Nat) (salt : Nat) (p : String) : BcryptHash :=
  ⟨cost, salt, bcryptDigest salt p⟩

/-- Modelled from the spec: `verify(plaintext, storedHash)` recomputes the
digest using the parameters embedded in the stored hash and compares
(`bcrypt.compare(contrasena, user.contrasena)`). -/
def bcryptCompare (p : String) (h : BcryptHash) : Bool :=
  bcryptDigest h.salt p == h.digest

/-! ## Token Service (jsonwebtoken model)

`part_000` signs the claim object with field `id`
(`jwt.sign({ id: user.id }, secret, { expiresIn: '1h' })`), while
`index.js`'s record-creation endpoint reads `decoded.id_usuario`.  Both
optional fields are therefore present in the claims model, together with
the absolute expiration instant `exp` that `expiresIn` induces. -/

structure Claims where
  id : Option Nat
  id_usuario : Option Nat
  exp : Nat
deriving DecidableEq

def encOptNat : Option Nat → List Nat
  | none => [0, 0]
  | some v => [1, v]

def decOptNat : Nat → Nat → Option (Option Nat)
  | 0, 0 => some none
  | 1, v => some (some v)
  | _, _ => none

/-- Serialisation of the claims object into payload bytes. -/
def encodeClaims (c : Claims) : List Nat :=
  encOptNat c.id ++ encOptNat c.id_usuario ++ [c.exp]

def decodeClaims : List Nat → Option Claims
  | [t1, v1, t2, v2, e] =>
    match decOptNat t1 v1, decOptNat t2 v2 with
    | some o1, some o2 => some ⟨o1, o2, e⟩
    | _, _ => none
  | _ => none

/-- A structured token: payload bytes plus the signature computed over
them with the process secret. -/
structure RawJwt where
  payload : List Nat
  sig : List Nat
deriving DecidableEq

/-- Modelled from the spec: the MAC over the payload under the process
secret, as a concrete stand-in that is injective in the payload for a
fixed secret (any payload mutation invalidates the signature). -/
def signBytes (secret payload : List Nat) : List Nat :=
  secret ++ payload

inductive JwtError where
  | malformed
  | badSignature
  | expired
deriving DecidableEq

/-- The `err.message` strings of jsonwebtoken's error classes, which
`index.js` line 184 sends back inside the 500 body. -/
def JwtError.message : JwtError → String
  | .malformed => "jwt malformed"
  | .badSignature => "invalid signature"
  | .expired => "jwt expired"

def jwtSignClaims (secret : List Nat) (c : Claims) : RawJwt :=
  ⟨encodeClaims c, signBytes secret (encodeClaims c)⟩

/-- Modelled from the spec: section 4.2 `issue(accountId, ttl)` — the
payload embeds the account id under field `id` and the absolute
expiration `now + ttl`. -/
def jwtIssue (secret : List Nat) (uid : Nat) (now : Nat) (ttl : Nat) : RawJwt :=
  jwtSignClaims secret ⟨some uid, none, now + ttl⟩

/-- `jwt.sign({ id: user.id }, process.env.JWT_SECRET, { expiresIn: '1h' })`
from `part_000` line 134: ttl fixed at 3600 seconds. -/
def signLogin (secret : List Nat) (uid : Nat) (now : Nat) : RawJwt :=
  jwtIssue secret uid now 3600

/-- Modelled from the spec: section 4.2 `validate` on a structured token —
`BadSignature` if the signature does not verify against the process
secret (this also catches payload tampering), `Malformed` if the payload
cannot be decoded, `Expired` if the current instant is at or past the
embedded expiration, otherwise the claims are returned. -/
def jwtVerify (secret : List Nat) (now : Nat) (t : RawJwt) : Except JwtError Claims :=
  if t.sig = signBytes secret t.payload then
    match decodeClaims t.payload with
    | none => .error .malformed
    | some c => if c.exp ≤ now then .error .expired else .ok c
  else .error .badSignature

/-! ## Wire format

`jwt.verify` receives a string; the two variants disagree on how that
string is obtained from the `Authorization` header.  The wire format is a
three-part dot-separated rendering (header, payload bytes, signature
bytes), with byte lists rendered as dash-separated decimal digit groups —
an alphabet disjoint from `.` and the space, as in base64url. -/

def digitToChar (d : Nat) : Char :=
  if d < 10 then Char.ofNat (d + 48) else 'X'

def charToDigit (c : Char) : Option Nat :=
  if 48 ≤ c.toNat && c.toNat ≤ 57 then some (c.toNat - 48) else none

/-- Little-endian decimal digits of a number, by structural recursion on
a fuel bound so that concrete tokens evaluate by reduction. -/
def digitsFuel : Nat → Nat → List Nat
  | _, 0 => []
  | 0, _ + 1 => []
  | fuel + 1, n + 1 => ((n + 1) % 10) :: digitsFuel fuel ((n + 1) / 10)

def natDigits (n : Nat) : List Nat :=
  digitsFuel n n

/-- One byte rendered as its (little-endian) decimal digit characters. -/
def encNat (n : Nat) : List Char :=
  (natDigits n).map digitToChar

def decDigits : List Char → Option (List Nat)
  | [] => some []
  | c :: cs =>
    match charToDigit c, decDigits cs with
    | some d, some ds => some (d :: ds)
    | _, _ => none

def decodeGroup (cs : List Char) : Option Nat :=
  (decDigits cs).map (Nat.ofDigits 10)

/-- Byte lists joined with `-`. -/
def encBytes : List Nat → List Char
  | [] => []
  | [n] => encNat n
  | n :: ns => encNat n ++ '-' :: encBytes ns

/-- Splitting a character list on a separator, with JavaScript
`String.prototype.split` semantics (adjacent separators yield empty
segments, the result is never empty). -/
def splitOnChar (c : Char) : List Char → List (List Char)
  | [] => [[]]
  | x :: xs =>
    if x = c then [] :: splitOnChar c xs
    else
      match splitOnChar c xs with
      | [] => [[x]]
      | r :: rs => (x :: r) :: rs

def decGroups : List (List Char) → Option (List Nat)
  | [] => some []
  | g :: gs =>
    match decodeGroup g, decGroups gs with
    | some n, some ns => some (n :: ns)
    | _, _ => none

def decBytes (cs : List Char) : Option (List Nat) :=
  decGroups (splitOnChar '-' cs)

def jwtHeaderChars : List Char := ['J', 'W', 'T']

/-- The serialised token string presented in the `Authorization` header. -/
def tokenChars (t : RawJwt) : List Char :=
  jwtHeaderChars ++ '.' :: (encBytes t.payload ++ '.' :: encBytes t.sig)

/-- Parsing a presented string into a structured token: three dot-separated
parts, a recognised header, decodable payload and signature bytes. -/
def parseToken (cs : List Char) : Option RawJwt :=
  match splitOnChar '.' cs with
  | [h, p, s] =>
    if h = jwtHeaderChars then
      match decBytes p, decBytes s with
      | some pb, some sb => some ⟨pb, sb⟩
      | _, _ => none
    else none
  | _ => none

/-- Modelled from the spec: `jwt.verify(token, secret)` on the presented
string — `Malformed` when the structure cannot be parsed, otherwise the
structured validation. -/
def jwtVerifyStr (secret : List Nat) (now : Nat) (cs : List Char) : Except JwtError Claims :=
  match parseToken cs with
  | none => .error .malformed
  | some t => jwtVerify secret now t

/-! ## HTTP layer data model

Rows of the `usuarios` table (SELECT * returns id, nombre, correo,
contrasena, where contrasena stores the bcrypt hash) and of the
`registros` table (id, the owning account column — named `usuario_id` in
`part_000` and `id_usuario` in `index.js` — tipo, monto, descripcion,
fecha). -/

structure UsuarioRow where
  id : Nat
  nombre : String
  correo : String
  contrasena : BcryptHash
deriving DecidableEq

structure Registro where
  id : Nat
  id_usuario : Option Nat
  tipo : String
  monto : Nat
  descripcion : Option String
  fecha : String
deriving DecidableEq

inductive ResponseBody where
  | errorMsg (msg : String)
  | usuarioRow (u : UsuarioRow)
  | loginSuccessUser (msg : String) (u : UsuarioRow)
  | loginSuccessUserToken (msg : String) (u : UsuarioRow) (token : RawJwt)
  | registroRow (r : Registro)
  | registroDeleted (msg : String) (r : Registro)
deriving DecidableEq

structure HttpResponse where
  status : Nat
  body : ResponseBody
deriving DecidableEq

/-- JavaScript falsiness of an optional request-body string field:
`!x` is true when the field is absent or the empty string. -/
def jsFalsy (o : Option String) : Bool :=
  (o.getD "") = ""

/-- JavaScript falsiness of an optional numeric field (absent or 0). -/
def jsFalsyNat (o : Option Nat) : Bool :=
  (o.getD 0) = 0

/-- `SELECT * FROM usuarios WHERE correo = $1`, first row. -/
def findByCorreo (db : List UsuarioRow) (correo : String) : Option UsuarioRow :=
  db.find? (fun u => u.correo == correo)

/-! ## Route handlers -/

/-- `POST /usuarios/login` of `src/unnamed/part_000` (lines 112-144):
400 when correo or contrasena is missing; 404 "Usuario no encontrado"
when no row matches the correo; on a bcrypt match, 200 with message, the
full user row and a fresh token signed over the user's id; otherwise 400
"Contraseña incorrecta". -/
def login_part000 (secret : List Nat) (now : Nat) (db : List UsuarioRow)
    (correo contrasena : Option String) : HttpResponse :=
  if jsFalsy correo || jsFalsy contrasena then
    ⟨400, .errorMsg "Se requiere correo y contraseña."⟩
  else
    match findByCorreo db (correo.getD "") with
    | none => ⟨404, .errorMsg "Usuario no encontrado"⟩
    | some user =>
      if bcryptCompare (contrasena.getD "") user.contrasena then
        ⟨200, .loginSuccessUserToken "Inicio de sesión exitoso" user
          (signLogin secret user.id now)⟩
      else
        ⟨400, .errorMsg "Contraseña incorrecta"⟩

/-- `POST /usuarios/login` of `src/index.js` (lines 111-142): identical to
the `part_000` variant except that the success branch returns only the
message and the user row — no token is signed. -/
def login_index (db : List UsuarioRow)
    (correo contrasena : Option String) : HttpResponse :=
  if jsFalsy correo || jsFalsy contrasena then
    ⟨400, .errorMsg "Se requiere correo y contraseña."⟩
  else
    match findByCorreo db (correo.getD "") with
    | none => ⟨404, .errorMsg "Usuario no encontrado"⟩
    | some user =>
      if bcryptCompare (contrasena.getD "") user.contrasena then
        ⟨200, .loginSuccessUser "Inicio de sesión exitoso" user⟩
      else
        ⟨400, .errorMsg "Contraseña incorrecta"⟩

/-- Outcome of the `verifyToken` middleware of `part_000`: 403 when the
header is absent or falsy, 401 "Token inválido" when `jwt.verify`
throws, otherwise the handler runs with `req.usuario_id = decoded.id`
(possibly `undefined` when the claim is absent). -/
inductive AuthOutcome where
  | noToken
  | invalid
  | authed (usuario_id : Option Nat)
deriving DecidableEq

/-- `verifyToken` middleware of `src/unnamed/part_000` (lines 147-160):
the ENTIRE raw `Authorization` header value is passed to `jwt.verify` —
no bearer-scheme prefix is stripped. -/
def verifyToken_part000 (secret : List Nat) (now : Nat)
    (authHeader : Option (List Char)) : AuthOutcome :=
  match authHeader with
  | none => .noToken
  | some cs =>
    if cs.isEmpty then .noToken
    else
      match jwtVerifyStr secret now cs with
      | .error _ => .invalid
      | .ok c => .authed c.id

/-- Token extraction of `src/index.js` line 167:
`req.headers.authorization?.split(' ')[1]` — the header is split on a
space and the second part (or `undefined`) is taken. -/
def extractBearer (cs : List Char) : Option (List Char) :=
  (splitOnChar ' ' cs)[1]?

def index_token_of_header (authHeader : Option (List Char)) : Option (List Char) :=
  authHeader.bind extractBearer

/-- `POST /registros` of `src/index.js` (lines 160-186): 400 on missing
body fields; 401 when no token could be extracted from the header; then
`jwt.verify` runs inside the try block, so a verification failure falls
into the catch and yields 500 with `err.message`; on success the record
is inserted with `id_usuario = decoded.id_usuario`. -/
def post_registros_index (secret : List Nat) (now : Nat)
    (authHeader : Option (List Char))
    (tipo : Option String) (monto : Option Nat)
    (descripcion fecha : Option String)
    (db : List Registro) (newId : Nat) : HttpResponse × List Registro :=
  if jsFalsy tipo || jsFalsyNat monto || jsFalsy fecha then
    (⟨400, .errorMsg "Faltan campos obligatorios: tipo, monto, fecha."⟩, db)
  else
    match index_token_of_header authHeader with
    | none => (⟨401, .errorMsg "Se requiere autenticación"⟩, db)
    | some tok =>
      if tok.isEmpty then (⟨401, .errorMsg "Se requiere autenticación"⟩, db)
      else
        match jwtVerifyStr secret now tok with
        | .error e => (⟨500, .errorMsg e.message⟩, db)
        | .ok c =>
          let inserted : Registro :=
            ⟨newId, c.id_usuario, tipo.getD "", monto.getD 0, descripcion, fecha.getD ""⟩
          (⟨201, .registroRow inserted⟩, db ++ [inserted])

/-- `DELETE /registros/:id` of `src/unnamed/part_000` (lines 197-209):
guarded by `verifyToken`, then `DELETE FROM registros WHERE id = $1
RETURNING *` — the authenticated account id is never consulted. -/
def delete_registros_part000 (secret : List Nat) (now : Nat)
    (authHeader : Option (List Char))
    (db : List Registro) (rid : Nat) : HttpResponse × List Registro :=
  match verifyToken_part000 secret now authHeader with
  | .noToken => (⟨403, .errorMsg "No autorizado, falta token"⟩, db)
  | .invalid => (⟨401, .errorMsg "Token inválido"⟩, db)
  | .authed _ =>
    match db.find? (fun r => r.id == rid) with
    | none => (⟨404, .errorMsg "Registro no encontrado"⟩, db)
    | some r =>
      (⟨200, .registroDeleted "Registro eliminado correctamente" r⟩,
       db.filter (fun r => r.id != rid))

/-- `GET /usuarios/correo/:correo` of `src/unnamed/part_001`
(lines 56-67): 404 when no row matches, otherwise the full row —
including the stored contrasena hash — is returned. -/
def get_usuario_correo_part001 (db : List UsuarioRow) (correo : String) : HttpResponse :=
  match db.find? (fun u => u.correo == correo) with
  | none => ⟨404, .errorMsg "Usuario no encontrado"⟩
  | some u => ⟨200, .usuarioRow u⟩

/-- The stored credential hashes occurring in a response body returned
to the caller. -/
def bodyHashes : ResponseBody → List BcryptHash
  | .errorMsg _ => []
  | .usuarioRow u => [u.contrasena]
  | .loginSuccessUser _ u => [u.contrasena]
  | .loginSuccessUserToken _ u _ => [u.contrasena]
  | .registroRow _ => []
  | .registroDeleted _ _ => []

/-! ## Lemmas about the wire format -/

theorem splitOnChar_of_not_mem {c : Char} {l : List Char} (h : c ∉ l) :
    splitOnChar c l = [l] := by
  induction l with
  | nil => rfl
  | cons x xs ih =>
    have hx : ¬ x = c := fun hh => h (hh ▸ List.mem_cons_self x xs)
    have hxs : c ∉ xs := fun hm => h (List.mem_cons_of_mem _ hm)
    simp only [splitOnChar, hx, if_false, ih hxs]

theorem splitOnChar_append_cons {c : Char} {l1 : List Char} (l2 : List Char)
    (h : c ∉ l1) :
    splitOnChar c (l1 ++ c :: l2) = l1 :: splitOnChar c l2 := by
  induction l1 with
  | nil => simp [splitOnChar]
  | cons x xs ih =>
    have hx : ¬ x = c := fun hh => h (hh ▸ List.mem_cons_self x xs)
    have hxs : c ∉ xs := fun hm => h (List.mem_cons_of_mem _ hm)
    simp only [List.cons_append, splitOnChar, hx, if_false, List.append_eq, ih hxs]

theorem charToDigit_digitToChar {d : Nat} (h : d < 10) :
    charToDigit (digitToChar d) = some d := by
  interval_cases d <;> decide

theorem digitToChar_ne (d : Nat) :
    digitToChar d ≠ '.' ∧ digitToChar d ≠ ' ' ∧ digitToChar d ≠ '-' := by
  unfold digitToChar
  split
  · next h => interval_cases d <;> exact ⟨by decide, by decide, by decide⟩
  · exact ⟨by decide, by decide, by decide⟩

theorem digitsFuel_lt {fuel n d : Nat} (h : d ∈ digitsFuel fuel n) : d < 10 := by
  induction fuel generalizing n with
  | zero => cases n <;> simp [digitsFuel] at h
  | succ f ih =>
    cases n with
    | zero => simp [digitsFuel] at h
    | succ m =>
      rw [digitsFuel] at h
      rcases List.mem_cons.mp h with rfl | hrec
      · exact Nat.mod_lt _ (by norm_num)
      · exact ih hrec

theorem ofDigits_digitsFuel {fuel n : Nat} (h : n ≤ fuel) :
    Nat.ofDigits 10 (digitsFuel fuel n) = n := by
  induction fuel generalizing n with
  | zero =>
    have : n = 0 := Nat.le_zero.mp h
    subst this
    rfl
  | succ f ih =>
    cases n with
    | zero => rfl
    | succ m =>
      rw [digitsFuel, Nat.ofDigits_cons]
      have hq : (m + 1) / 10 ≤ f := by
        have h1 : (m + 1) / 10 < m + 1 := Nat.div_lt_self (Nat.succ_pos m) (by norm_num)
        omega
      rw [ih hq]
      omega

theorem natDigits_lt {n d : Nat} (h : d ∈ natDigits n) : d < 10 :=
  digitsFuel_lt h

theorem ofDigits_natDigits (n : Nat) : Nat.ofDigits 10 (natDigits n) = n :=
  ofDigits_digitsFuel (Nat.le_refl n)

theorem not_mem_encNat {c : Char} (hc : c = '.' ∨ c = ' ' ∨ c = '-') (n : Nat) :
    c ∉ encNat n := by
  intro hmem
  unfold encNat at hmem
  obtain ⟨d, _, hch⟩ := List.mem_map.mp hmem
  rcases hc with rfl | rfl | rfl
  · exact (digitToChar_ne d).1 hch
  · exact (digitToChar_ne d).2.1 hch
  · exact (digitToChar_ne d).2.2 hch

theorem dash_not_mem_encNat (n : Nat) : '-' ∉ encNat n :=
  not_mem_encNat (Or.inr (Or.inr rfl)) n

theorem not_mem_encBytes {c : Char} (hc : c = '.' ∨ c = ' ') (l : List Nat) :
    c ∉ encBytes l := by
  induction l with
  | nil => simp [encBytes]
  | cons n ns ih =>
    cases ns with
    | nil => exact not_mem_encNat (by tauto) n
    | cons m ms =>
      rw [show encBytes (n :: m :: ms) = encNat n ++ '-' :: encBytes (m :: ms) from rfl]
      intro hmem
      rcases List.mem_append.mp hmem with h1 | h2
      · exact not_mem_encNat (by tauto) n h1
      · rcases List.mem_cons.mp h2 with he | h3
        · rcases hc with rfl | rfl <;> simp at he
        · exact ih h3

theorem dot_not_mem_encBytes (l : List Nat) : '.' ∉ encBytes l :=
  not_mem_encBytes (Or.inl rfl) l

theorem space_not_mem_encBytes (l : List Nat) : ' ' ∉ encBytes l :=
  not_mem_encBytes (Or.inr rfl) l

theorem decDigits_map_digitToChar (l : List Nat) (h : ∀ d ∈ l, d < 10) :
    decDigits (l.map digitToChar) = some l := by
  induction l with
  | nil => rfl
  | cons d ds ih =>
    rw [List.map_cons, decDigits,
      charToDigit_digitToChar (h d (List.mem_cons_self d ds)),
      ih (fun x hx => h x (List.mem_cons_of_mem _ hx))]

theorem decodeGroup_encNat (n : Nat) : decodeGroup (encNat n) = some n := by
  unfold decodeGroup encNat
  rw [decDigits_map_digitToChar _ (fun d hd => natDigits_lt hd)]
  simp [ofDigits_natDigits]

theorem decBytes_encBytes {l : List Nat} (h : l ≠ []) :
    decBytes (encBytes l) = some l := by
  induction l with
  | nil => exact absurd rfl h
  | cons n ns ih =>
    cases ns with
    | nil =>
      show decGroups (splitOnChar '-' (encNat n)) = some [n]
      rw [splitOnChar_of_not_mem (dash_not_mem_encNat n), decGroups,
        decodeGroup_encNat]
      rfl
    | cons m ms =>
      show decGroups (splitOnChar '-' (encNat n ++ '-' :: encBytes (m :: ms))) = _
      rw [splitOnChar_append_cons _ (dash_not_mem_encNat n), decGroups,
        decodeGroup_encNat]
      have ih2 := ih (by simp)
      unfold decBytes at ih2
      rw [ih2]

/-! ## Lemmas about the token service -/

theorem decodeClaims_encodeClaims (c : Claims) :
    decodeClaims (encodeClaims c) = some c := by
  obtain ⟨i, u, e⟩ := c
  cases i <;> cases u <;> rfl

theorem encodeClaims_ne_nil (c : Claims) : encodeClaims c ≠ [] := by
  obtain ⟨i, u, e⟩ := c
  cases i <;> cases u <;> simp [encodeClaims, encOptNat]

theorem signBytes_ne_nil {secret : List Nat} {p : List Nat} (h : p ≠ []) :
    signBytes secret p ≠ [] := by
  simp [signBytes, h]

theorem parseToken_tokenChars {t : RawJwt} (hp : t.payload ≠ []) (hs : t.sig ≠ []) :
    parseToken (tokenChars t) = some t := by
  unfold parseToken tokenChars
  rw [splitOnChar_append_cons _ (by decide),
    splitOnChar_append_cons _ (dot_not_mem_encBytes t.payload),
    splitOnChar_of_not_mem (dot_not_mem_encBytes t.sig)]
  simp [decBytes_encBytes hp, decBytes_encBytes hs]

theorem jwtVerify_jwtSignClaims_fresh {secret : List Nat} {c : Claims} {now : Nat}
    (h : now < c.exp) :
    jwtVerify secret now (jwtSignClaims secret c) = .ok c := by
  unfold jwtVerify jwtSignClaims
  simp [decodeClaims_encodeClaims, Nat.not_le.mpr h]

theorem jwtVerify_jwtIssue_fresh {secret : List Nat} {uid issuedAt ttl now : Nat}
    (h : now < issuedAt + ttl) :
    jwtVerify secret now (jwtIssue secret uid issuedAt ttl) =
      .ok ⟨some uid, none, issuedAt + ttl⟩ :=
  jwtVerify_jwtSignClaims_fresh h

theorem jwtVerifyStr_tokenChars {secret : List Nat} {now : Nat} {t : RawJwt}
    (hp : t.payload ≠ []) (hs : t.sig ≠ []) :
    jwtVerifyStr secret now (tokenChars t) = jwtVerify secret now t := by
  unfold jwtVerifyStr
  rw [parseToken_tokenChars hp hs]

theorem jwtVerifyStr_jwtIssue_fresh {secret : List Nat} {uid issuedAt ttl now : Nat}
    (h : now < issuedAt + ttl) :
    jwtVerifyStr secret now (tokenChars (jwtIssue secret uid issuedAt ttl)) =
      .ok ⟨some uid, none, issuedAt + ttl⟩ := by
  rw [jwtVerifyStr_tokenChars (encodeClaims_ne_nil _)
    (signBytes_ne_nil (encodeClaims_ne_nil _))]
  exact jwtVerify_jwtIssue_fresh h

theorem tokenChars_ne_nil (t : RawJwt) : tokenChars t ≠ [] := by
  simp [tokenChars, jwtHeaderChars]

theorem verifyToken_part000_valid {secret : List Nat} {uid issuedAt now : Nat}
    (h : now < issuedAt + 3600) :
    verifyToken_part000 secret now (some (tokenChars (signLogin secret uid issuedAt))) =
      .authed (some uid) := by
  simp only [verifyToken_part000]
  have hne : ¬ (tokenChars (signLogin secret uid issuedAt)).isEmpty = true := by
    simpa [List.isEmpty_iff] using tokenChars_ne_nil (signLogin secret uid issuedAt)
  rw [if_neg hne]
  unfold signLogin
  rw [jwtVerifyStr_jwtIssue_fresh h]

theorem space_not_mem_tokenChars (t : RawJwt) : ' ' ∉ tokenChars t := by
  unfold tokenChars
  intro hmem
  rcases List.mem_append.mp hmem with h1 | h2
  · revert h1
    decide
  · rcases List.mem_cons.mp h2 with he | h3
    · exact absurd he (by decide)
    · rcases List.mem_append.mp h3 with h4 | h5
      · exact space_not_mem_encBytes _ h4
      · rcases List.mem_cons.mp h5 with he | h6
        · exact absurd he (by decide)
        · exact space_not_mem_encBytes _ h6

theorem parseToken_bearer (t : RawJwt) :
    parseToken ("Bearer ".toList ++ tokenChars t) = none := by
  unfold parseToken tokenChars
  have hassoc :
      "Bearer ".toList ++
          (jwtHeaderChars ++ '.' :: (encBytes t.payload ++ '.' :: encBytes t.sig)) =
        ("Bearer ".toList ++ jwtHeaderChars) ++
          '.' :: (encBytes t.payload ++ '.' :: encBytes t.sig) :=
    (List.append_assoc _ _ _).symm
  rw [hassoc, splitOnChar_append_cons _ (by decide),
    splitOnChar_append_cons _ (dot_not_mem_encBytes t.payload),
    splitOnChar_of_not_mem (dot_not_mem_encBytes t.sig)]
  rfl

theorem extractBearer_of_tokenChars (t : RawJwt) :
    extractBearer ("Bearer ".toList ++ tokenChars t) = some (tokenChars t) := by
  unfold extractBearer
  have hsplit : "Bearer ".toList ++ tokenChars t =
      "Bearer".toList ++ ' ' :: tokenChars t := rfl
  rw [hsplit, splitOnChar_append_cons _ (by decide),
    splitOnChar_of_not_mem (space_not_mem_tokenChars t)]
  rfl

/-! ## The claims -/

/-- C1: the spec requires that an unknown identifying key and a wrong
password for an existing account yield externally indistinguishable
failures.  The code distinguishes them: both login variants answer 404
"Usuario no encontrado" for an unknown correo and 400 "Contraseña
incorrecta" for a wrong password on an existing account. -/
theorem C1_login_failures_distinguishable :
    login_part000 [0] 0 [⟨1, "n", "a@b", bcryptHash 10 3 "pw"⟩]
        (some "x@y") (some "pw") = ⟨404, .errorMsg "Usuario no encontrado"⟩ ∧
    login_part000 [0] 0 [⟨1, "n", "a@b", bcryptHash 10 3 "pw"⟩]
        (some "a@b") (some "bad") = ⟨400, .errorMsg "Contraseña incorrecta"⟩ ∧
    login_index [⟨1, "n", "a@b", bcryptHash 10 3 "pw"⟩]
        (some "x@y") (some "pw") = ⟨404, .errorMsg "Usuario no encontrado"⟩ ∧
    login_index [⟨1, "n", "a@b", bcryptHash 10 3 "pw"⟩]
        (some "a@b") (some "bad") = ⟨400, .errorMsg "Contraseña incorrecta"⟩ ∧
    login_part000 [0] 0 [⟨1, "n", "a@b", bcryptHash 10 3 "pw"⟩]
        (some "x@y") (some "pw") ≠
      login_part000 [0] 0 [⟨1, "n", "a@b", bcryptHash 10 3 "pw"⟩]
        (some "a@b") (some "bad") := by
  refine ⟨rfl, rfl, rfl, rfl, by decide⟩

/-- C2: in `part_000`, validating a token immediately after issuance does
return the original account id (first conjunct), but the repository's
only issuer signs the claim under field `id`, while the `index.js`
record-creation endpoint reads `decoded.id_usuario`: presenting a fresh
valid token issued for account 7 there inserts a record whose owning id
is `none` (undefined), not 7 (second conjunct). -/
theorem C2_validate_returns_issuer_id :
    verifyToken_part000 [2] 10 (some (tokenChars (signLogin [2] 7 0))) =
      .authed (some 7) ∧
    post_registros_index [2] 10
        (some ("Bearer ".toList ++ tokenChars (signLogin [2] 7 0)))
        (some "gasto") (some 5) none (some "2024-01-01") [] 1 =
      (⟨201, .registroRow ⟨1, none, "gasto", 5, none, "2024-01-01"⟩⟩,
       [⟨1, none, "gasto", 5, none, "2024-01-01"⟩]) := by
  exact ⟨rfl, rfl⟩

/-- C3: the `part_000` login success carries a freshly issued token bound
to the account, but the `index.js` login succeeds returning only the
message and the user row — no token is ever issued there. -/
theorem C3_index_login_succeeds_without_token :
    login_part000 [0] 0 [⟨1, "n", "a@b", bcryptHash 10 3 "pw"⟩]
        (some "a@b") (some "pw") =
      ⟨200, .loginSuccessUserToken "Inicio de sesión exitoso"
        ⟨1, "n", "a@b", bcryptHash 10 3 "pw"⟩ (signLogin [0] 1 0)⟩ ∧
    login_index [⟨1, "n", "a@b", bcryptHash 10 3 "pw"⟩]
        (some "a@b") (some "pw") =
      ⟨200, .loginSuccessUser "Inicio de sesión exitoso"
        ⟨1, "n", "a@b", bcryptHash 10 3 "pw"⟩⟩ :=
  ⟨rfl, rfl⟩

/-- C5: on a token that fails validation, the `part_000` middleware does
reject with 401, but the `index.js` record-creation endpoint runs
`jwt.verify` inside its try block, so the same expired token produces a
500 response carrying the jwt error message — not an unauthorized
outcome. -/
theorem C5_index_validate_failure_yields_500 :
    post_registros_index [2] 5000
        (some ("Bearer ".toList ++ tokenChars (signLogin [2] 7 0)))
        (some "gasto") (some 5) none (some "2024-01-01") [] 1 =
      (⟨500, .errorMsg "jwt expired"⟩, []) ∧
    verifyToken_part000 [2] 5000 (some (tokenChars (signLogin [2] 7 0))) =
      .invalid := by
  exact ⟨rfl, rfl⟩

/-- C8: the persisted credential hash is returned to callers: the
successful `part_000` login response embeds the full user row including
the stored hash, and so does `part_001`'s lookup by correo. -/
theorem C8_responses_contain_stored_hash :
    bcryptHash 10 3 "pw" ∈ bodyHashes (login_part000 [0] 0
        [⟨1, "n", "a@b", bcryptHash 10 3 "pw"⟩] (some "a@b") (some "pw")).body ∧
    bcryptHash 10 3 "pw" ∈ bodyHashes (get_usuario_correo_part001
        [⟨1, "n", "a@b", bcryptHash 10 3 "pw"⟩] "a@b").body := by
  constructor
  · show bcryptHash 10 3 "pw" ∈ [bcryptHash 10 3 "pw"]
    exact List.mem_singleton.mpr rfl
  · show bcryptHash 10 3 "pw" ∈ [bcryptHash 10 3 "pw"]
    exact List.mem_singleton.mpr rfl

/-- C4: for every non-empty plaintext password and every salt (and cost
factor) the hashing operation may draw, verifying the plaintext against
the hash just produced from it succeeds. -/
theorem C4_verify_of_hash (cost salt : Nat) (p : String) (h : p ≠ "") :
    bcryptCompare p (bcryptHash cost salt p) = true := by
  simp [bcryptCompare, bcryptHash]

theorem C4_verify_of_hash_witness :
    "pw" ≠ "" ∧ bcryptCompare "pw" (bcryptHash 10 3 "pw") = true :=
  ⟨by decide, C4_verify_of_hash 10 3 "pw" (by decide)⟩

/-- C6: validating an issued token at or after its embedded expiration
instant yields the Expired failure, never the account identifier. -/
theorem C6_validate_at_or_after_expiry (secret : List Nat)
    (uid issuedAt ttl now : Nat) (h : issuedAt + ttl ≤ now) :
    jwtVerifyStr secret now (tokenChars (jwtIssue secret uid issuedAt ttl)) =
      .error .expired := by
  rw [jwtVerifyStr_tokenChars (encodeClaims_ne_nil _)
    (signBytes_ne_nil (encodeClaims_ne_nil _))]
  unfold jwtIssue jwtVerify jwtSignClaims
  simp [decodeClaims_encodeClaims, h]

theorem C6_validate_at_or_after_expiry_witness :
    0 + 5 ≤ 5 ∧
    jwtVerifyStr [1] 5 (tokenChars (jwtIssue [1] 7 0 5)) = .error .expired :=
  ⟨by decide, C6_validate_at_or_after_expiry [1] 7 0 5 5 (by decide)⟩

/-- C7: any modification of an issued token's payload bytes (a byte set
to a value that changes the payload) makes validation fail with
BadSignature; no account identifier is ever returned. -/
theorem C7_payload_tamper_bad_signature (secret : List Nat) (c : Claims)
    (now i b : Nat) (h : (encodeClaims c).set i b ≠ encodeClaims c) :
    jwtVerify secret now
        ⟨(encodeClaims c).set i b, (jwtSignClaims secret c).sig⟩ =
      .error .badSignature := by
  unfold jwtVerify jwtSignClaims
  rw [if_neg]
  intro he
  simp only [signBytes] at he
  exact h (List.append_cancel_left he).symm

theorem C7_payload_tamper_bad_signature_witness :
    (encodeClaims ⟨some 2, none, 9⟩).set 1 5 ≠ encodeClaims ⟨some 2, none, 9⟩ ∧
    jwtVerify [1] 0
        ⟨(encodeClaims ⟨some 2, none, 9⟩).set 1 5,
         (jwtSignClaims [1] ⟨some 2, none, 9⟩).sig⟩ =
      .error .badSignature :=
  ⟨by decide, C7_payload_tamper_bad_signature [1] ⟨some 2, none, 9⟩ 0 1 5 (by decide)⟩

/-- C9: presenting a valid token in the standard form with the `Bearer `
prefix: the `part_000` middleware passes the entire raw header to
validation, so it rejects the request (401 Token inválido), while the
`index.js` extraction splits the header on a space, takes the second
part, and that part validates successfully to the issued claims. -/
theorem C9_bearer_prefix_divergence (secret : List Nat)
    (uid issuedAt now : Nat) (h : now < issuedAt + 3600) :
    verifyToken_part000 secret now
        (some ("Bearer ".toList ++ tokenChars (signLogin secret uid issuedAt))) =
      .invalid ∧
    index_token_of_header
        (some ("Bearer ".toList ++ tokenChars (signLogin secret uid issuedAt))) =
      some (tokenChars (signLogin secret uid issuedAt)) ∧
    jwtVerifyStr secret now (tokenChars (signLogin secret uid issuedAt)) =
      .ok ⟨some uid, none, issuedAt + 3600⟩ := by
  refine ⟨?_, ?_, ?_⟩
  · have hv : jwtVerifyStr secret now
        ("Bearer ".toList ++ tokenChars (signLogin secret uid issuedAt)) =
        .error .malformed := by
      unfold jwtVerifyStr
      rw [parseToken_bearer]
    have hne : ¬ (("Bearer ".toList ++
        tokenChars (signLogin secret uid issuedAt)).isEmpty = true) := by
      simp [List.isEmpty_iff]
    simp only [verifyToken_part000]
    rw [if_neg hne, hv]
  · exact extractBearer_of_tokenChars (signLogin secret uid issuedAt)
  · unfold signLogin
    exact jwtVerifyStr_jwtIssue_fresh h

theorem C9_bearer_prefix_divergence_witness :
    10 < 0 + 3600 ∧
    (verifyToken_part000 [2] 10
        (some ("Bearer ".toList ++ tokenChars (signLogin [2] 7 0))) =
      .invalid ∧
    index_token_of_header
        (some ("Bearer ".toList ++ tokenChars (signLogin [2] 7 0))) =
      some (tokenChars (signLogin [2] 7 0)) ∧
    jwtVerifyStr [2] 10 (tokenChars (signLogin [2] 7 0)) =
      .ok ⟨some 7, none, 0 + 3600⟩) :=
  ⟨by decide, C9_bearer_prefix_divergence [2] 7 0 10 (by decide)⟩

/-- C10: DELETE /registros/:id in `part_000` is authenticated but not
ownership-scoped: its outcome (response and resulting table) is the same
whichever account's valid unexpired token is presented. -/
theorem C10_delete_ignores_token_identity (secret : List Nat)
    (a b issuedA issuedB now : Nat) (db : List Registro) (rid : Nat)
    (ha : now < issuedA + 3600) (hb : now < issuedB + 3600) :
    delete_registros_part000 secret now
        (some (tokenChars (signLogin secret a issuedA))) db rid =
      delete_registros_part000 secret now
        (some (tokenChars (signLogin secret b issuedB))) db rid := by
  unfold delete_registros_part000
  rw [verifyToken_part000_valid ha, verifyToken_part000_valid hb]

theorem C10_delete_ignores_token_identity_witness :
    10 < 0 + 3600 ∧
    delete_registros_part000 [2] 10
        (some (tokenChars (signLogin [2] 1 0)))
        [⟨5, some 2, "gasto", 3, none, "2024-01-01"⟩] 5 =
      delete_registros_part000 [2] 10
        (some (tokenChars (signLogin [2] 2 0)))
        [⟨5, some 2, "gasto", 3, none, "2024-01-01"⟩] 5 :=
  ⟨by decide,
   C10_delete_ignores_token_identity [2] 1 2 0 0 10
     [⟨5, some 2, "gasto", 3, none, "2024-01-01"⟩] 5 (by decide) (by decide)⟩
